import Mathlib

/-!
Verification of the SVG-path-to-outline core of the `editlogo` repository.

The embedding below translates, statement for statement, the TypeScript code of
`AdvancedSVGPathParser` / `analyzeShape` / `processAdvancedSVGFile`
(src/unnamed/part_004) and of `analyzeShapeForZoom` /
`createProgressiveDetailLevels` (src/src/utils/detailedShapeConverter.ts),
together with the fragments of the three.js library that this code calls
(`THREE.Path.moveTo/lineTo/closePath`, `THREE.CurvePath.getPoints`,
`THREE.CubicBezierCurve`, `THREE.QuadraticBezierCurve`, `THREE.EllipseCurve`).

Modelling conventions:
* JavaScript numbers are modelled as exact rationals; `NaN` (which `Number(s)`
  yields on unparseable coordinate text) is modelled by `none` in `Option ℚ`,
  with the usual NaN propagation through arithmetic and the `===`-style
  equality under which `NaN` is not equal to anything.
* The transcendental primitives used by the arc code (`Math.cos`, `Math.sin`,
  `Math.atan2`, `Math.PI`, and the angle normalisation loop inside
  `THREE.EllipseCurve.getPoint`) are not rational functions; they are threaded
  through the definitions as an explicit record `RealFns` of uninterpreted
  functions, exactly at the call sites where the source invokes them.  Every
  theorem about arcs below holds for an arbitrary `RealFns`, i.e. for any
  behaviour of the floating-point trigonometric primitives.
-/

set_option maxRecDepth 1000000
set_option maxHeartbeats 2000000

namespace EditLogo

/-- A JavaScript number as produced by `Number(string)`: `some q` is an
ordinary numeric value (modelled exactly as a rational), `none` models `NaN`. -/
abbrev JSNum := Option ℚ

/-- JS addition: `NaN` propagates. -/
def jsAdd : JSNum → JSNum → JSNum
  | some a, some b => some (a + b)
  | _, _ => none

/-- JS subtraction: `NaN` propagates. -/
def jsSub : JSNum → JSNum → JSNum
  | some a, some b => some (a - b)
  | _, _ => none

/-- JS multiplication: `NaN` propagates (also `0 * NaN = NaN`, as in JS). -/
def jsMul : JSNum → JSNum → JSNum
  | some a, some b => some (a * b)
  | _, _ => none

/-- JS division by a nonzero numeric literal constant (used for `/ 2`,
`/ 50`, `/ 180` in the source); `NaN` propagates. -/
def jsDivC (a : JSNum) (c : ℚ) : JSNum := a.map (· / c)

/-- JS strict equality `===` on numbers: `NaN === x` is false for every `x`. -/
def jsEq : JSNum → JSNum → Bool
  | some a, some b => a == b
  | _, _ => false

/-- A 2D point (`THREE.Vector2`). -/
structure Pt where
  x : JSNum
  y : JSNum
deriving DecidableEq, Repr

/-- `THREE.Vector2.equals`: componentwise `===`. -/
def ptEq (p q : Pt) : Bool := jsEq p.x q.x && jsEq p.y q.y

/-- A `THREE.LineCurve`: the straight segment from `v1` to `v2`. -/
structure Seg where
  v1 : Pt
  v2 : Pt
deriving DecidableEq, Repr

/-- A `THREE.Shape` as the parser uses it.  The parser only ever calls
`moveTo`, `lineTo` and `closePath` on the shape (all curved commands are
flattened to `lineTo` calls before reaching it), so every curve stored in the
shape is a `LineCurve`.  `currentPoint` is the path's current point. -/
structure Shape where
  curves : List Seg
  currentPoint : Pt
deriving DecidableEq, Repr

/-- `new THREE.Shape()`: no curves, current point `(0,0)`. -/
def Shape.empty : Shape := ⟨[], ⟨some 0, some 0⟩⟩

/-- `THREE.Path.moveTo`: sets the current point, adds no curve. -/
def Shape.moveTo (s : Shape) (p : Pt) : Shape := { s with currentPoint := p }

/-- `THREE.Path.lineTo`: appends a `LineCurve` from the current point and
advances the current point. -/
def Shape.lineTo (s : Shape) (p : Pt) : Shape :=
  ⟨s.curves ++ [⟨s.currentPoint, p⟩], p⟩

/-- `THREE.CurvePath.closePath` (inherited unchanged by `Path` and `Shape`):
`startPoint = curves[0].getPoint(0)` (the first curve's start) and
`endPoint = curves[curves.length - 1].getPoint(1)` (the last curve's
endpoint); when they differ under `Vector2.equals`, a
`LineCurve(endPoint, startPoint)` is appended.  The current point is not
updated.  On an empty curve list `curves[0]` is `undefined` and the library
throws a `TypeError`; that thrown exception is modelled as `none`. -/
def Shape.closePath (s : Shape) : Option Shape :=
  match s.curves with
  | [] => none
  | c :: rest =>
    let endPoint := (rest.getLastD c).v2
    if ptEq c.v1 endPoint then some s
    else some ⟨s.curves ++ [⟨endPoint, c.v1⟩], s.currentPoint⟩

/-- `THREE.CurvePath.getPoints(divisions)` specialised to paths whose curves
are all `LineCurve`s: each `LineCurve` is sampled at resolution 1 (its two
endpoints), and a sample equal (under `Vector2.equals`) to the previously kept
sample is skipped.  `autoClose` is false (its default; the source never sets
it).  Because only line curves occur, the `divisions` argument does not affect
the result, exactly as in the library. -/
def Shape.getPts (s : Shape) (divisions : ℕ) : List Pt :=
  let push := fun (acc : List Pt × Option Pt) (p : Pt) =>
    match acc.2 with
    | some lastP => if ptEq lastP p then acc else (acc.1 ++ [p], some p)
    | none => (acc.1 ++ [p], some p)
  let _ := divisions
  (s.curves.foldl (fun acc sg => push (push acc sg.v1) sg.v2) ([], none)).1

/-- The floating-point transcendental primitives used by the arc code,
threaded through the embedding as uninterpreted functions:
`cosF`/`sinF`/`atan2F` model `Math.cos`/`Math.sin`/`Math.atan2`, `piF` models
the constant `Math.PI`, and `normDelta` models the angle-range normalisation
performed at the top of `THREE.EllipseCurve.getPoint` (the
`while` loops plus epsilon tests that bring `aEndAngle - aStartAngle` into
`[0, 2π]`, given the curve's `aClockwise` flag). -/
structure RealFns where
  cosF : ℚ → ℚ
  sinF : ℚ → ℚ
  atan2F : ℚ → ℚ → ℚ
  piF : ℚ
  normDelta : ℚ → Bool → ℚ

/-- `Math.cos` lifted to JS numbers (`NaN` in, `NaN` out). -/
def jsCos (f : RealFns) : JSNum → JSNum := Option.map f.cosF

/-- `Math.sin` lifted to JS numbers. -/
def jsSin (f : RealFns) : JSNum → JSNum := Option.map f.sinF

/-- `Math.atan2` lifted to JS numbers. -/
def jsAtan2 (f : RealFns) : JSNum → JSNum → JSNum
  | some y, some x => some (f.atan2F y x)
  | _, _ => none

/-- The `EllipseCurve.getPoint` angle normalisation lifted to JS numbers. -/
def jsNormDelta (f : RealFns) (d : JSNum) (clockwise : Bool) : JSNum :=
  d.map (f.normDelta · clockwise)

/-- A `THREE.CubicBezierCurve` (control points `v0..v3`). -/
structure CubicBez where
  v0 : Pt
  v1 : Pt
  v2 : Pt
  v3 : Pt
deriving DecidableEq, Repr

/-- The cubic Bernstein combination used by three.js
(`CubicBezier(t, p0, p1, p2, p3)` with `k = 1 - t`). -/
def cubicComb (t : ℚ) (p0 p1 p2 p3 : JSNum) : JSNum :=
  let k := 1 - t
  jsAdd (jsAdd (jsAdd (jsMul (some (k * k * k)) p0)
    (jsMul (some (3 * k * k * t)) p1))
    (jsMul (some (3 * k * t * t)) p2))
    (jsMul (some (t * t * t)) p3)

/-- `THREE.CubicBezierCurve.getPoint`. -/
def CubicBez.getPoint (c : CubicBez) (t : ℚ) : Pt :=
  ⟨cubicComb t c.v0.x c.v1.x c.v2.x c.v3.x, cubicComb t c.v0.y c.v1.y c.v2.y c.v3.y⟩

/-- `THREE.Curve.getPoints(divisions)`: samples `getPoint(d / divisions)` for
`d = 0 .. divisions` inclusive. -/
def CubicBez.getPts (c : CubicBez) (n : ℕ) : List Pt :=
  (List.range (n + 1)).map fun i => c.getPoint ((i : ℚ) / (n : ℚ))

/-- A `THREE.QuadraticBezierCurve`. -/
structure QuadBez where
  v0 : Pt
  v1 : Pt
  v2 : Pt
deriving DecidableEq, Repr

/-- The quadratic Bernstein combination used by three.js. -/
def quadComb (t : ℚ) (p0 p1 p2 : JSNum) : JSNum :=
  let k := 1 - t
  jsAdd (jsAdd (jsMul (some (k * k)) p0) (jsMul (some (2 * k * t)) p1))
    (jsMul (some (t * t)) p2)

/-- `THREE.QuadraticBezierCurve.getPoint`. -/
def QuadBez.getPoint (c : QuadBez) (t : ℚ) : Pt :=
  ⟨quadComb t c.v0.x c.v1.x c.v2.x, quadComb t c.v0.y c.v1.y c.v2.y⟩

/-- `THREE.Curve.getPoints(divisions)` for a quadratic Bézier. -/
def QuadBez.getPts (c : QuadBez) (n : ℕ) : List Pt :=
  (List.range (n + 1)).map fun i => c.getPoint ((i : ℚ) / (n : ℚ))

/-- A `THREE.EllipseCurve` (`aRotVal` is the constructor's `aRotation`
argument). -/
structure EllipseCurve where
  aX : JSNum
  aY : JSNum
  xRadius : JSNum
  yRadius : JSNum
  aStartAngle : JSNum
  aEndAngle : JSNum
  aClockwise : Bool
  aRotVal : JSNum
deriving DecidableEq, Repr

/-- `THREE.EllipseCurve.getPoint`: normalise the sweep `aEndAngle -
aStartAngle` (modelled by `normDelta`), evaluate the parametric ellipse, and
apply the axis rotation when `aRotation !== 0`.  Every curve the parser
constructs has `aRotVal = 0` and `aClockwise = false`. -/
def EllipseCurve.getPoint (f : RealFns) (e : EllipseCurve) (t : ℚ) : Pt :=
  let delta := jsNormDelta f (jsSub e.aEndAngle e.aStartAngle) e.aClockwise
  let angle := jsAdd e.aStartAngle (jsMul (some t) delta)
  let x := jsAdd e.aX (jsMul e.xRadius (jsCos f angle))
  let y := jsAdd e.aY (jsMul e.yRadius (jsSin f angle))
  if jsEq e.aRotVal (some 0) then ⟨x, y⟩
  else
    let cr := jsCos f e.aRotVal
    let sr := jsSin f e.aRotVal
    let tx := jsSub x e.aX
    let ty := jsSub y e.aY
    ⟨jsAdd (jsSub (jsMul tx cr) (jsMul ty sr)) e.aX,
     jsAdd (jsAdd (jsMul tx sr) (jsMul ty cr)) e.aY⟩

/-- `THREE.Curve.getPoints(divisions)` for an ellipse curve. -/
def EllipseCurve.getPts (f : RealFns) (e : EllipseCurve) (n : ℕ) : List Pt :=
  (List.range (n + 1)).map fun i => e.getPoint f ((i : ℚ) / (n : ℚ))

/-- The supported SVG command letters
(`/[MmLlHhVvCcSsQqTtAaZz]/` in the tokenising regex). -/
def cmdLetters : List Char :=
  ['M', 'm', 'L', 'l', 'H', 'h', 'V', 'v', 'C', 'c', 'S', 's',
   'Q', 'q', 'T', 't', 'A', 'a', 'Z', 'z']

/-- Whether a character is one of the supported command letters. -/
def isCmd (c : Char) : Bool := cmdLetters.contains c

/-- One left-to-right scan implementing
`pathData.match(/[MmLlHhVvCcSsQqTtAaZz][^MmLlHhVvCcSsQqTtAaZz]*/g)`:
characters before the first command letter are skipped; each command letter
starts a token that extends over all following non-command characters.
`acc` holds the token being built, in reverse. -/
def tokenizeGo : List Char → List Char → List (List Char)
  | acc, [] => if acc = [] then [] else [acc.reverse]
  | acc, c :: rest =>
    if isCmd c then
      (if acc = [] then [] else [acc.reverse]) ++ tokenizeGo [c] rest
    else
      if acc = [] then tokenizeGo [] rest else tokenizeGo (c :: acc) rest

/-- The command tokens of a path string. -/
def tokenize (cs : List Char) : List (List Char) := tokenizeGo [] cs

/-- JS `\s` whitespace, restricted to the characters that occur in path data. -/
def isWS (c : Char) : Bool := c = ' ' || c = '\t' || c = '\n' || c = '\r'

/-- A separator of the argument list: whitespace or comma (`/[\s,]+/`). -/
def isSep (c : Char) : Bool := isWS c || c = ','

/-- `String.prototype.trim`. -/
def trimChars (cs : List Char) : List Char :=
  ((cs.dropWhile isWS).reverse.dropWhile isWS).reverse

/-- `str.split(/[\s,]+/).filter(Boolean)`: the maximal runs of non-separator
characters, in order.  `acc` holds the field being built, in reverse. -/
def splitGo : List Char → List Char → List (List Char)
  | acc, [] => if acc = [] then [] else [acc.reverse]
  | acc, c :: rest =>
    if isSep c then (if acc = [] then [] else [acc.reverse]) ++ splitGo [] rest
    else splitGo (c :: acc) rest

/-- Split an argument string into its non-empty fields. -/
def splitCoords (cs : List Char) : List (List Char) := splitGo [] cs

/-- The numeric value of a digit string. -/
def natOfDigits (cs : List Char) : ℕ :=
  cs.foldl (fun n c => 10 * n + (c.toNat - 48)) 0

/-- An unsigned decimal numeral: digits with an optional single decimal
point.  Anything else is `NaN` (`none`). -/
def parseUnsigned (cs : List Char) : JSNum :=
  let intPart := cs.takeWhile Char.isDigit
  let rest := cs.dropWhile Char.isDigit
  match rest with
  | [] => if intPart = [] then none else some (natOfDigits intPart)
  | '.' :: frac =>
    if frac.all Char.isDigit && !(intPart = [] && frac = []) then
      some ((natOfDigits intPart : ℚ) + (natOfDigits frac : ℚ) / 10 ^ frac.length)
    else none
  | _ => none

/-- JS `Number(str)` on a non-empty token, for the decimal-numeral subset of
its grammar used by path data: an optional sign followed by an unsigned
decimal.  Unparseable tokens (such as `"B10"`) evaluate to `NaN`. -/
def parseJSNumber (cs : List Char) : JSNum :=
  match cs with
  | '-' :: rest => (parseUnsigned rest).map Neg.neg
  | '+' :: rest => parseUnsigned rest
  | _ => parseUnsigned cs

/-- `command.slice(1).trim().split(/[\s,]+/).filter(Boolean).map(Number)`. -/
def getCoords (tok : List Char) : List JSNum :=
  (splitCoords (trimChars (tok.drop 1))).map parseJSNumber

/-- The private mutable fields of `AdvancedSVGPathParser`. -/
structure PState where
  currentX : JSNum
  currentY : JSNum
  startX : JSNum
  startY : JSNum
  subpathStartX : JSNum
  subpathStartY : JSNum
  lastControlX : JSNum
  lastControlY : JSNum
deriving DecidableEq, Repr

/-- `reset()`: every field back to 0 (`parsePath` calls it before parsing). -/
def PState.init : PState :=
  ⟨some 0, some 0, some 0, some 0, some 0, some 0, some 0, some 0⟩

/-- `handleMoveTo`. -/
def handleMoveTo (coords : List JSNum) (isAbsolute : Bool) (st : PState) (sh : Shape) :
    PState × Shape :=
  if coords.length ≥ 2 then
    let cx := if isAbsolute then coords.getD 0 none else jsAdd st.currentX (coords.getD 0 none)
    let cy := if isAbsolute then coords.getD 1 none else jsAdd st.currentY (coords.getD 1 none)
    ({ st with currentX := cx, currentY := cy, subpathStartX := cx, subpathStartY := cy },
     sh.moveTo ⟨cx, cy⟩)
  else (st, sh)

/-- `handleLineTo`. -/
def handleLineTo (coords : List JSNum) (isAbsolute : Bool) (st : PState) (sh : Shape) :
    PState × Shape :=
  if coords.length ≥ 2 then
    let cx := if isAbsolute then coords.getD 0 none else jsAdd st.currentX (coords.getD 0 none)
    let cy := if isAbsolute then coords.getD 1 none else jsAdd st.currentY (coords.getD 1 none)
    ({ st with currentX := cx, currentY := cy }, sh.lineTo ⟨cx, cy⟩)
  else (st, sh)

/-- `handleHorizontalLine`. -/
def handleHorizontalLine (coords : List JSNum) (isAbsolute : Bool) (st : PState) (sh : Shape) :
    PState × Shape :=
  if coords.length ≥ 1 then
    let cx := if isAbsolute then coords.getD 0 none else jsAdd st.currentX (coords.getD 0 none)
    ({ st with currentX := cx }, sh.lineTo ⟨cx, st.currentY⟩)
  else (st, sh)

/-- `handleVerticalLine`. -/
def handleVerticalLine (coords : List JSNum) (isAbsolute : Bool) (st : PState) (sh : Shape) :
    PState × Shape :=
  if coords.length ≥ 1 then
    let cy := if isAbsolute then coords.getD 0 none else jsAdd st.currentY (coords.getD 0 none)
    ({ st with currentY := cy }, sh.lineTo ⟨st.currentX, cy⟩)
  else (st, sh)

/-- Emit `shape.lineTo(points[i])` for `i = 1 .. points.length - 1`. -/
def emitTail (sh : Shape) (pts : List Pt) : Shape :=
  (pts.drop 1).foldl Shape.lineTo sh

/-- `handleCubicBezier`: resolve the six coordinates, build a
`CubicBezierCurve` from the current point, sample it at `getPoints(50)` and
emit the samples after the first as `lineTo`s; record the second control
point in `lastControl`. -/
def handleCubicBezier (coords : List JSNum) (isAbsolute : Bool) (st : PState) (sh : Shape) :
    PState × Shape :=
  if coords.length ≥ 6 then
    let cp1x := if isAbsolute then coords.getD 0 none else jsAdd st.currentX (coords.getD 0 none)
    let cp1y := if isAbsolute then coords.getD 1 none else jsAdd st.currentY (coords.getD 1 none)
    let cp2x := if isAbsolute then coords.getD 2 none else jsAdd st.currentX (coords.getD 2 none)
    let cp2y := if isAbsolute then coords.getD 3 none else jsAdd st.currentY (coords.getD 3 none)
    let endX := if isAbsolute then coords.getD 4 none else jsAdd st.currentX (coords.getD 4 none)
    let endY := if isAbsolute then coords.getD 5 none else jsAdd st.currentY (coords.getD 5 none)
    let curve : CubicBez :=
      ⟨⟨st.currentX, st.currentY⟩, ⟨cp1x, cp1y⟩, ⟨cp2x, cp2y⟩, ⟨endX, endY⟩⟩
    ({ st with currentX := endX, currentY := endY, lastControlX := cp2x, lastControlY := cp2y },
     emitTail sh (curve.getPts 50))
  else (st, sh)

/-- The curve constructed by `handleSmoothCubicBezier`: its first control
point is `current - (lastControl - current)`, computed from the parser state
regardless of what the previous command was. -/
def smoothCubicCurve (coords : List JSNum) (isAbsolute : Bool) (st : PState) : CubicBez :=
  let cp1x := jsSub st.currentX (jsSub st.lastControlX st.currentX)
  let cp1y := jsSub st.currentY (jsSub st.lastControlY st.currentY)
  let cp2x := if isAbsolute then coords.getD 0 none else jsAdd st.currentX (coords.getD 0 none)
  let cp2y := if isAbsolute then coords.getD 1 none else jsAdd st.currentY (coords.getD 1 none)
  let endX := if isAbsolute then coords.getD 2 none else jsAdd st.currentX (coords.getD 2 none)
  let endY := if isAbsolute then coords.getD 3 none else jsAdd st.currentY (coords.getD 3 none)
  ⟨⟨st.currentX, st.currentY⟩, ⟨cp1x, cp1y⟩, ⟨cp2x, cp2y⟩, ⟨endX, endY⟩⟩

/-- `handleSmoothCubicBezier`. -/
def handleSmoothCubicBezier (coords : List JSNum) (isAbsolute : Bool) (st : PState) (sh : Shape) :
    PState × Shape :=
  if coords.length ≥ 4 then
    let curve := smoothCubicCurve coords isAbsolute st
    ({ st with currentX := curve.v3.x, currentY := curve.v3.y,
               lastControlX := curve.v2.x, lastControlY := curve.v2.y },
     emitTail sh (curve.getPts 50))
  else (st, sh)

/-- `handleQuadraticBezier`: samples its curve at `getPoints(30)`. -/
def handleQuadraticBezier (coords : List JSNum) (isAbsolute : Bool) (st : PState) (sh : Shape) :
    PState × Shape :=
  if coords.length ≥ 4 then
    let cpx := if isAbsolute then coords.getD 0 none else jsAdd st.currentX (coords.getD 0 none)
    let cpy := if isAbsolute then coords.getD 1 none else jsAdd st.currentY (coords.getD 1 none)
    let endX := if isAbsolute then coords.getD 2 none else jsAdd st.currentX (coords.getD 2 none)
    let endY := if isAbsolute then coords.getD 3 none else jsAdd st.currentY (coords.getD 3 none)
    let curve : QuadBez := ⟨⟨st.currentX, st.currentY⟩, ⟨cpx, cpy⟩, ⟨endX, endY⟩⟩
    ({ st with currentX := endX, currentY := endY, lastControlX := cpx, lastControlY := cpy },
     emitTail sh (curve.getPts 30))
  else (st, sh)

/-- The curve constructed by `handleSmoothQuadraticBezier`: its control point
is `current - (lastControl - current)`. -/
def smoothQuadCurve (coords : List JSNum) (isAbsolute : Bool) (st : PState) : QuadBez :=
  let cpx := jsSub st.currentX (jsSub st.lastControlX st.currentX)
  let cpy := jsSub st.currentY (jsSub st.lastControlY st.currentY)
  let endX := if isAbsolute then coords.getD 0 none else jsAdd st.currentX (coords.getD 0 none)
  let endY := if isAbsolute then coords.getD 1 none else jsAdd st.currentY (coords.getD 1 none)
  ⟨⟨st.currentX, st.currentY⟩, ⟨cpx, cpy⟩, ⟨endX, endY⟩⟩

/-- `handleSmoothQuadraticBezier`. -/
def handleSmoothQuadraticBezier (coords : List JSNum) (isAbsolute : Bool) (st : PState)
    (sh : Shape) : PState × Shape :=
  if coords.length ≥ 2 then
    let curve := smoothQuadCurve coords isAbsolute st
    ({ st with currentX := curve.v2.x, currentY := curve.v2.y,
               lastControlX := curve.v1.x, lastControlY := curve.v1.y },
     emitTail sh (curve.getPts 30))
  else (st, sh)

/-- `createEllipticalArc`: the "simplified arc implementation" — centre at the
midpoint of the two endpoints, start/end angles from `atan2` about that
centre, and an `EllipseCurve` with `aClockwise = false` and `aRotation = 0`.
The `rotVal`, `largeArcFlag` and `sweepFlag` parameters are accepted but not
used, exactly as in the source; nothing in the body can throw, so the
function always returns a curve (`some`), and the `null` fallback of the
caller is unreachable. -/
def createEllipticalArc (f : RealFns) (x1 y1 x2 y2 rx ry : JSNum) (rotVal : JSNum)
    (largeArcFlag sweepFlag : Bool) : Option EllipseCurve :=
  let _ := rotVal
  let _ := largeArcFlag
  let _ := sweepFlag
  let centerX := jsDivC (jsAdd x1 x2) 2
  let centerY := jsDivC (jsAdd y1 y2) 2
  let startAngle := jsAtan2 f (jsSub y1 centerY) (jsSub x1 centerX)
  let endAngle := jsAtan2 f (jsSub y2 centerY) (jsSub x2 centerX)
  some ⟨centerX, centerY, rx, ry, startAngle, endAngle, false, some 0⟩

/-- `handleArc`: read the seven arguments (converting the rotation to
radians and the flags to booleans), build the elliptical arc, sample it at
`getPoints(50)` and emit the samples after the first; if the construction
returned `null`, fall back to a single `lineTo` to the arc's endpoint.  The
current point is then set to the endpoint; `lastControl` is not touched. -/
def handleArc (f : RealFns) (coords : List JSNum) (isAbsolute : Bool) (st : PState)
    (sh : Shape) : PState × Shape :=
  if coords.length ≥ 7 then
    let rx := coords.getD 0 none
    let ry := coords.getD 1 none
    let rotVal := jsDivC (jsMul (coords.getD 2 none) (some f.piF)) 180
    let largeArcFlag := !(jsEq (coords.getD 3 none) (some 0))
    let sweepFlag := !(jsEq (coords.getD 4 none) (some 0))
    let endX := if isAbsolute then coords.getD 5 none else jsAdd st.currentX (coords.getD 5 none)
    let endY := if isAbsolute then coords.getD 6 none else jsAdd st.currentY (coords.getD 6 none)
    match createEllipticalArc f st.currentX st.currentY endX endY rx ry rotVal
        largeArcFlag sweepFlag with
    | some arc =>
      ({ st with currentX := endX, currentY := endY }, emitTail sh (arc.getPts f 50))
    | none =>
      ({ st with currentX := endX, currentY := endY }, sh.lineTo ⟨endX, endY⟩)
  else (st, sh)

/-- The state update performed by `handleClosePath` after a successful
`closePath`: the current point is set back to the subpath start
(`lastControl` is not touched). -/
def closePathState (st : PState) : PState :=
  { st with currentX := st.subpathStartX, currentY := st.subpathStartY }

/-- `handleClosePath`: close the shape; if `closePath` throws (empty curve
list), the exception propagates and the state assignments do not run. -/
def handleClosePath (st : PState) (sh : Shape) : Option (PState × Shape) :=
  (sh.closePath).map fun sh2 => (closePathState st, sh2)

/-- `parseCommand`: dispatch on the lower-cased command letter; the absolute
flag is `type === <uppercase letter>`.  The `default` branch only logs and
drops the command.  Only the `z` case can throw (via `closePath`). -/
def parseCommandTok (f : RealFns) (tok : List Char) (st : PState) (sh : Shape) :
    Option (PState × Shape) :=
  match tok with
  | [] => some (st, sh)
  | ty :: _ =>
    let coords := getCoords tok
    if ty.toLower = 'm' then some (handleMoveTo coords (ty = 'M') st sh)
    else if ty.toLower = 'l' then some (handleLineTo coords (ty = 'L') st sh)
    else if ty.toLower = 'h' then some (handleHorizontalLine coords (ty = 'H') st sh)
    else if ty.toLower = 'v' then some (handleVerticalLine coords (ty = 'V') st sh)
    else if ty.toLower = 'c' then some (handleCubicBezier coords (ty = 'C') st sh)
    else if ty.toLower = 's' then some (handleSmoothCubicBezier coords (ty = 'S') st sh)
    else if ty.toLower = 'q' then some (handleQuadraticBezier coords (ty = 'Q') st sh)
    else if ty.toLower = 't' then some (handleSmoothQuadraticBezier coords (ty = 'T') st sh)
    else if ty.toLower = 'a' then some (handleArc f coords (ty = 'A') st sh)
    else if ty.toLower = 'z' then handleClosePath st sh
    else some (st, sh)

/-- Run `parseCommand` over a token list, threading state and shape; a
thrown exception aborts the remaining tokens. -/
def parseTokens (f : RealFns) (toks : List (List Char)) (st : PState) (sh : Shape) :
    Option (PState × Shape) :=
  toks.foldl (fun acc tok => acc.bind fun p => parseCommandTok f tok p.1 p.2) (some (st, sh))

/-- `AdvancedSVGPathParser.parsePath`: reset the state, parse every token
into a fresh shape, and — only when the whole string contains neither `'Z'`
nor `'z'` — close the shape at the end.  `none` models a thrown `TypeError`
(a `closePath` on a shape with no curves), which escapes `parsePath` and is
caught by the per-path `try/catch` of the caller. -/
def parsePath (f : RealFns) (pathData : String) : Option Shape :=
  (parseTokens f (tokenize pathData.toList) PState.init Shape.empty).bind fun res =>
    if !(pathData.toList.contains 'Z') && !(pathData.toList.contains 'z') then
      res.2.closePath
    else some res.2

/-- The curve command letters counted by `analyzeShape`
(`pathData.match(/[CcSsQqTtAa]/g)`). -/
def curveLetters : List Char := ['C', 'c', 'S', 's', 'Q', 'q', 'T', 't', 'A', 'a']

/-- The number of curve command letters occurring in a path string. -/
def countCurveLetters (d : String) : ℕ :=
  (d.toList.filter (fun c => curveLetters.contains c)).length

/-- The complexity-related result of `analyzeShape` (the bounding box, which
no claim depends on, is omitted). -/
structure ShapeAnalysisR where
  complexity : ℕ
  curveCount : ℕ
deriving DecidableEq, Repr

/-- `analyzeShape`: sample the shape at `getPoints(100)`, count the curve
command letters of the path string, and set
`complexity = points.length + curveCount * 10`. -/
def analyzeShape (sh : Shape) (pathData : String) : ShapeAnalysisR :=
  let pts := sh.getPts 100
  let curveCount := countCurveLetters pathData
  ⟨pts.length + curveCount * 10, curveCount⟩

/-- The fallback shape built by `processAdvancedSVGFile` when no shapes were
produced: a square with corners `(±10, ±10)`, explicitly closed.  This
`closePath` acts on three curves, so it cannot throw; the `getD` default is
never taken. -/
def fallbackShape : Shape :=
  ((((((Shape.empty.moveTo ⟨some (-10), some (-10)⟩).lineTo
    ⟨some 10, some (-10)⟩).lineTo
    ⟨some 10, some 10⟩).lineTo
    ⟨some (-10), some 10⟩).closePath).getD Shape.empty)

/-- The outcome of `processAdvancedSVGFile` as far as outlines are concerned:
the resolved `success` flag and the list of shapes handed to the caller. -/
structure AdvProcessResult where
  success : Bool
  shapes : List Shape
deriving DecidableEq, Repr

/-- The shape-collection core of `processAdvancedSVGFile`: each path element
that has a `d` attribute is parsed into one shape inside a per-path
`try/catch`, so a path whose parse throws contributes nothing; if at the end
no shapes were created, a fallback square is substituted; the promise
resolves with `success: true`.  (File reading and metadata extraction are
I/O plumbing around this.) -/
def processAdvancedSVG (f : RealFns) (pathDatas : List (Option String)) : AdvProcessResult :=
  let shapes := pathDatas.foldl (fun acc pd =>
    match pd with
    | some d =>
      match parsePath f d with
      | some sh => acc ++ [sh]
      | none => acc
    | none => acc) []
  let shapes := if shapes.isEmpty then [fallbackShape] else shapes
  ⟨true, shapes⟩

/-- The `DetailedShapeSettings` record of `detailedShapeConverter.ts`.  All
numeric fields are JS numbers (integrality is *not* guaranteed by the code),
modelled as exact rationals. -/
structure DetailedShapeSettings where
  resolution : ℚ
  extrudeDepth : ℚ
  bevelEnabled : Bool
  bevelThickness : ℚ
  bevelSize : ℚ
  bevelSegments : ℚ
  curveSegments : ℚ
  steps : ℚ
deriving DecidableEq, Repr

/-- The `optimalSettings` computed by `analyzeShapeForZoom` from a shape's
precomputed `complexity`, `curveCount` and bounding-box diagonal length
`boundingBox.size.length()` (the last is an input here because
`analyzeShapeForZoom` reads it ready-made from `svgData.individualShapes`). -/
def analyzeShapeForZoomSettings (complexity curveCount sizeLen : ℚ) : DetailedShapeSettings :=
  { resolution := max 50 (min 200 (complexity / 10))
    extrudeDepth := max (1 / 2) (min 5 (sizeLen / 20))
    bevelEnabled := decide (curveCount > 5)
    bevelThickness := if curveCount > 10 then 3 / 10 else 1 / 10
    bevelSize := if curveCount > 10 then 1 / 5 else 1 / 20
    bevelSegments := max 2 (min 8 (curveCount / 2))
    curveSegments := max 32 (min 128 (complexity / 5))
    steps := max 1 (min 4 ((Int.floor (complexity / 50) : ℤ) : ℚ)) }

/-- The four rung multipliers of `createProgressiveDetailLevels`
(Low ×0.5, Medium ×1.0, High ×2.0, Ultra ×4.0). -/
def levelMultipliers : List ℚ := [1 / 2, 1, 2, 4]

/-- One rung of the progressive ladder: `resolution` and `curveSegments` are
scaled by the rung multiplier and floored; `steps` is scaled, floored and
kept at least 1; the remaining fields are taken from the base settings. -/
def ladderRung (base : DetailedShapeSettings) (m : ℚ) : DetailedShapeSettings :=
  { resolution := ((Int.floor (base.resolution * m) : ℤ) : ℚ)
    extrudeDepth := base.extrudeDepth
    bevelEnabled := base.bevelEnabled
    bevelThickness := base.bevelThickness
    bevelSize := base.bevelSize
    bevelSegments := base.bevelSegments
    curveSegments := ((Int.floor (base.curveSegments * m) : ℤ) : ℚ)
    steps := max 1 ((Int.floor (base.steps * m) : ℤ) : ℚ) }

/-- The settings of the four detail levels produced by
`createProgressiveDetailLevels`. -/
def createProgressiveDetailSettings (complexity curveCount sizeLen : ℚ) :
    List DetailedShapeSettings :=
  let base := analyzeShapeForZoomSettings complexity curveCount sizeLen
  levelMultipliers.map (ladderRung base)

/-- A concrete instantiation of the transcendental primitives, used only to
state closed (fully evaluable) counterexamples; every universal theorem below
quantifies over the primitives instead. -/
def fns0 : RealFns := ⟨fun _ => 0, fun _ => 0, fun _ _ => 0, 0, fun d _ => d⟩

/-- The clamp function as the spec writes it:
`clamp(x, lo, hi)` saturates `x` into `[lo, hi]`. -/
def clampSpec (x lo hi : ℚ) : ℚ := if x < lo then lo else if hi < x then hi else x

theorem clampEq (x lo hi : ℚ) (h : lo ≤ hi) : max lo (min hi x) = clampSpec x lo hi := by
  unfold clampSpec
  rcases lt_or_le x lo with h1 | h1
  · rw [if_pos h1, min_eq_right (le_of_lt (lt_of_lt_of_le h1 h)), max_eq_left (le_of_lt h1)]
  · rw [if_neg (not_lt.mpr h1)]
    rcases lt_or_le hi x with h2 | h2
    · rw [if_pos h2, min_eq_left (le_of_lt h2), max_eq_right h]
    · rw [if_neg (not_lt.mpr h2), min_eq_right h2, max_eq_right h1]

theorem reflectEq (c l : JSNum) : jsSub c (jsSub l c) = jsSub (jsMul (some 2) c) l := by
  rcases c with _ | c <;> rcases l with _ | l <;> simp [jsSub, jsMul]
  ring

/-- If every non-empty accumulator ends in a command letter, every token
emitted by the scan starts with a command letter. -/
theorem tokenizeGoHeads (cs : List Char) :
    ∀ acc : List Char, (∀ c0, acc.getLast? = some c0 → isCmd c0 = true) →
      ∀ t ∈ tokenizeGo acc cs, ∃ c rest, t = c :: rest ∧ isCmd c = true := by
  induction cs with
  | nil =>
    intro acc hacc t ht
    by_cases h0 : acc = []
    · simp [tokenizeGo, h0] at ht
    · simp only [tokenizeGo, if_neg h0, List.mem_singleton] at ht
      subst ht
      cases hrev : acc.reverse with
      | nil => exact absurd (List.reverse_eq_nil_iff.mp hrev) h0
      | cons c rest =>
        exact ⟨c, rest, rfl, hacc c (by rw [← List.head?_reverse, hrev]; rfl)⟩
  | cons ch rest ih =>
    intro acc hacc t ht
    simp only [tokenizeGo] at ht
    by_cases hch : isCmd ch
    · rw [if_pos hch] at ht
      rcases List.mem_append.mp ht with h1 | h2
      · by_cases h0 : acc = []
        · simp [h0] at h1
        · rw [if_neg h0, List.mem_singleton] at h1
          subst h1
          cases hrev : acc.reverse with
          | nil => exact absurd (List.reverse_eq_nil_iff.mp hrev) h0
          | cons c r2 =>
            exact ⟨c, r2, rfl, hacc c (by rw [← List.head?_reverse, hrev]; rfl)⟩
      · refine ih [ch] ?_ t h2
        intro c0 hc0
        simp only [List.getLast?_singleton, Option.some.injEq] at hc0
        subst hc0; exact hch
    · rw [if_neg hch] at ht
      by_cases h0 : acc = []
      · rw [if_pos h0] at ht
        exact ih [] (by simp) t ht
      · rw [if_neg h0] at ht
        refine ih (ch :: acc) ?_ t ht
        intro c0 hc0
        apply hacc c0
        cases acc with
        | nil => exact absurd rfl h0
        | cons a as => rwa [List.getLast?_cons_cons] at hc0

/-- Every token produced by the tokenising regex starts with a supported
command letter: an unsupported letter can never surface as a command. -/
theorem tokenizeHeads (cs : List Char) :
    ∀ t ∈ tokenize cs, ∃ c rest, t = c :: rest ∧ isCmd c = true :=
  tokenizeGoHeads cs [] (by simp)

/-- C1, counterexample: unsupported letters are silently dropped, never
reported.  `"M0,0 L5,0 B10,10"` parses successfully to exactly the same
shape as `"M0,0 L5,0"`: the `'B'` and its arguments are absorbed into the
`L` token by the tokenising regex and ignored.  The claim's own input
`"M0,0 B10,10"` does fail — but identically to `"M0,0"` without any `'B'`:
a `TypeError` thrown by the final auto-close on a shape with no curves (the
absorbed `'B'` left only a `moveTo`), not an `UnsupportedCommand('B')`. -/
theorem c1_counterexample :
    parsePath fns0 "M0,0 L5,0 B10,10" = parsePath fns0 "M0,0 L5,0" ∧
    (parsePath fns0 "M0,0 L5,0 B10,10").isSome = true ∧
    parsePath fns0 "M0,0 B10,10" = none ∧
    parsePath fns0 "M0,0" = none := by
  refine ⟨?_, ?_, ?_, ?_⟩ <;> decide

/-- C1, amended: the parser never reports an unsupported command letter.
Every token the tokenising regex emits starts with a supported command
letter, so an unsupported letter such as `'B'` never even reaches the
command dispatch: it is folded into the preceding token's argument text
(where `Number` turns it into `NaN`) and silently ignored.  For every choice
of the floating-point primitives, `"M0,0 L5,0 B10,10"` parses to the same
(successful) result as `"M0,0 L5,0"`, and `"M0,0 B10,10"` behaves exactly
like `"M0,0"` — both throw the same curveless-`closePath` `TypeError`,
unrelated to the `'B'`. -/
theorem c1_unsupported_silently_dropped :
    (∀ (cs : List Char), ∀ t ∈ tokenize cs, ∃ c rest, t = c :: rest ∧ isCmd c = true) ∧
    (∀ f : RealFns, parsePath f "M0,0 L5,0 B10,10" = parsePath f "M0,0 L5,0") ∧
    (∀ f : RealFns, parsePath f "M0,0 B10,10" = parsePath f "M0,0") :=
  ⟨tokenizeHeads, fun _ => rfl, fun _ => rfl⟩

/-- C1, witness for the amended theorem at the claim's own input: the single
token of `"M0,0 B10,10"` starts with the supported letter `'M'`. -/
theorem c1_unsupported_witness :
    ∃ c rest, "M0,0 B10,10".toList = c :: rest ∧ isCmd c = true :=
  c1_unsupported_silently_dropped.1 "M0,0 B10,10".toList "M0,0 B10,10".toList (by decide)

/-- C2, counterexample: extra argument groups are discarded, not replayed.
`"M0,0 L10,0 20,0"` produces only the segment to `(10,0)` (plus the
auto-close segment); the second coordinate pair `(20,0)` is dropped, and the
parse equals that of `"M0,0 L10,0"`. -/
theorem c2_counterexample :
    parsePath fns0 "M0,0 L10,0 20,0" =
      some ⟨[⟨⟨some 0, some 0⟩, ⟨some 10, some 0⟩⟩,
             ⟨⟨some 10, some 0⟩, ⟨some 0, some 0⟩⟩], ⟨some 10, some 0⟩⟩ ∧
    parsePath fns0 "M0,0 L10,0 20,0" = parsePath fns0 "M0,0 L10,0" := by
  constructor <;> decide

/-- C2, amended: every command handler consumes exactly one fixed-size
argument group — its result depends only on the first arity-many arguments
(2 for M/L, 1 for H/V, 6 for C, 4 for S/Q, 2 for T, 7 for A) — so surplus
argument groups after a command letter are silently discarded and no
implicit repeats are emitted. -/
theorem c2_single_group_consumed :
    ∀ (f : RealFns) (coords : List JSNum) (isAbsolute : Bool) (st : PState) (sh : Shape),
      handleMoveTo coords isAbsolute st sh = handleMoveTo (coords.take 2) isAbsolute st sh ∧
      handleLineTo coords isAbsolute st sh = handleLineTo (coords.take 2) isAbsolute st sh ∧
      handleHorizontalLine coords isAbsolute st sh =
        handleHorizontalLine (coords.take 1) isAbsolute st sh ∧
      handleVerticalLine coords isAbsolute st sh =
        handleVerticalLine (coords.take 1) isAbsolute st sh ∧
      handleCubicBezier coords isAbsolute st sh =
        handleCubicBezier (coords.take 6) isAbsolute st sh ∧
      handleSmoothCubicBezier coords isAbsolute st sh =
        handleSmoothCubicBezier (coords.take 4) isAbsolute st sh ∧
      handleQuadraticBezier coords isAbsolute st sh =
        handleQuadraticBezier (coords.take 4) isAbsolute st sh ∧
      handleSmoothQuadraticBezier coords isAbsolute st sh =
        handleSmoothQuadraticBezier (coords.take 2) isAbsolute st sh ∧
      handleArc f coords isAbsolute st sh = handleArc f (coords.take 7) isAbsolute st sh := by
  intro f coords isAbsolute st sh
  refine ⟨?_, ?_, ?_, ?_, ?_, ?_, ?_, ?_, ?_⟩ <;>
    rcases coords with _ | ⟨a0, _ | ⟨a1, _ | ⟨a2, _ | ⟨a3, _ | ⟨a4, _ | ⟨a5, _ | ⟨a6, tl⟩⟩⟩⟩⟩⟩⟩ <;>
    first
      | rfl
      | (show handleArc f (a0 :: a1 :: a2 :: a3 :: a4 :: a5 :: a6 :: tl) isAbsolute st sh =
            handleArc f [a0, a1, a2, a3, a4, a5, a6] isAbsolute st sh
         unfold handleArc
         rw [if_pos (show (a0 :: a1 :: a2 :: a3 :: a4 :: a5 :: a6 :: tl).length ≥ 7 by
              simp [List.length_cons]),
            if_pos (show ([a0, a1, a2, a3, a4, a5, a6] : List JSNum).length ≥ 7 by
              simp [List.length_cons])]
         rfl)

/-- C9: `analyzeShape` computes
`complexityScore = pointCount + curveCommandCount * 10` (the points of the
outline at `getPoints(100)` plus ten times the number of curve command
letters), and with the outline fixed the score is strictly monotone in the
number of curve commands: of two otherwise identical paths, the one with
strictly more curve commands has the strictly greater score. -/
theorem c9_complexity_formula :
    (∀ (sh : Shape) (d : String),
      (analyzeShape sh d).complexity = (sh.getPts 100).length + countCurveLetters d * 10) ∧
    (∀ (sh : Shape) (d1 d2 : String),
      countCurveLetters d1 < countCurveLetters d2 →
      (analyzeShape sh d1).complexity < (analyzeShape sh d2).complexity) := by
  constructor
  · intro sh d; rfl
  · intro sh d1 d2 h
    simp only [analyzeShape]
    omega

/-- C9, witness: adding one `C` command strictly increases the complexity
score of the same outline. -/
theorem c9_complexity_witness :
    (analyzeShape Shape.empty "M0,0").complexity <
      (analyzeShape Shape.empty "M0,0 C1,1 2,2 3,3").complexity :=
  c9_complexity_formula.2 Shape.empty "M0,0" "M0,0 C1,1 2,2 3,3" (by decide)

/-- C10: the large-arc flag, the sweep flag and the x-axis rotation never
influence the flattening of an arc command: with the same current point,
radii and endpoint, `handleArc` produces the identical state and identical
emitted point sequence for any values of those three arguments (for every
behaviour of the floating-point primitives), because `createEllipticalArc`
centres the ellipse on the midpoint of the endpoints and hard-codes
counterclockwise direction and zero rotation. -/
theorem c10_arc_flag_independence :
    ∀ (f : RealFns) (rx ry rotDeg rotDeg2 laf laf2 swf swf2 endX endY : JSNum)
      (isAbsolute : Bool) (st : PState) (sh : Shape),
      handleArc f [rx, ry, rotDeg, laf, swf, endX, endY] isAbsolute st sh =
        handleArc f [rx, ry, rotDeg2, laf2, swf2, endX, endY] isAbsolute st sh := by
  intro f rx ry rotDeg rotDeg2 laf laf2 swf swf2 endX endY isAbsolute st sh
  rfl

/-- C3, counterexample: the reflection state is not reset by non-curve
commands.  After `"M0,0 C0,0 10,10 0,10 L5,5"` the current point is `(5,5)`
and the last command was a `LineTo`, so the claim requires the synthesized
first control point of a following `S` command to equal the current point
`(5,5)`; the parser instead still reflects the stale control point `(10,10)`
of the earlier `C` and synthesizes `(0,0)`. -/
theorem c3_counterexample :
    (parseTokens fns0 (tokenize ("M0,0 C0,0 10,10 0,10 L5,5".toList))
        PState.init Shape.empty).isSome = true ∧
    (((parseTokens fns0 (tokenize ("M0,0 C0,0 10,10 0,10 L5,5".toList))
        PState.init Shape.empty).getD (PState.init, Shape.empty)).1.currentX = some 5 ∧
     ((parseTokens fns0 (tokenize ("M0,0 C0,0 10,10 0,10 L5,5".toList))
        PState.init Shape.empty).getD (PState.init, Shape.empty)).1.currentY = some 5) ∧
    ((parseTokens fns0 (tokenize ("M0,0 C0,0 10,10 0,10 L5,5".toList))
        PState.init Shape.empty).getD (PState.init, Shape.empty)).1.lastControlX = some 10 ∧
    (smoothCubicCurve [some 20, some 20, some 30, some 30] true
      ((parseTokens fns0 (tokenize ("M0,0 C0,0 10,10 0,10 L5,5".toList))
        PState.init Shape.empty).getD (PState.init, Shape.empty)).1).v1 = ⟨some 0, some 0⟩ ∧
    ¬((smoothCubicCurve [some 20, some 20, some 30, some 30] true
      ((parseTokens fns0 (tokenize ("M0,0 C0,0 10,10 0,10 L5,5".toList))
        PState.init Shape.empty).getD (PState.init, Shape.empty)).1).v1 = ⟨some 5, some 5⟩) :=
  of_decide_eq_true (by with_unfolding_all rfl)

/-- C3, amended: the smooth variants always synthesize their first control
point as `2*current - lastControl` from the parser's stored reflection
state — the reflection formula of the claim — but that state is **not**
reset by non-curve commands: MoveTo, LineTo, horizontal/vertical lines, Arc
and ClosePath all leave `lastControl` untouched (it starts at `(0,0)` and is
only ever overwritten by C/S/Q/T themselves, with no distinction between the
cubic and quadratic families). -/
theorem c3_reflection_no_reset :
    (∀ (coords : List JSNum) (isAbsolute : Bool) (st : PState),
      (smoothCubicCurve coords isAbsolute st).v1 =
        ⟨jsSub (jsMul (some 2) st.currentX) st.lastControlX,
         jsSub (jsMul (some 2) st.currentY) st.lastControlY⟩ ∧
      (smoothQuadCurve coords isAbsolute st).v1 =
        ⟨jsSub (jsMul (some 2) st.currentX) st.lastControlX,
         jsSub (jsMul (some 2) st.currentY) st.lastControlY⟩) ∧
    (∀ (f : RealFns) (coords : List JSNum) (isAbsolute : Bool) (st : PState) (sh : Shape),
      (handleMoveTo coords isAbsolute st sh).1.lastControlX = st.lastControlX ∧
      (handleMoveTo coords isAbsolute st sh).1.lastControlY = st.lastControlY ∧
      (handleLineTo coords isAbsolute st sh).1.lastControlX = st.lastControlX ∧
      (handleLineTo coords isAbsolute st sh).1.lastControlY = st.lastControlY ∧
      (handleHorizontalLine coords isAbsolute st sh).1.lastControlX = st.lastControlX ∧
      (handleHorizontalLine coords isAbsolute st sh).1.lastControlY = st.lastControlY ∧
      (handleVerticalLine coords isAbsolute st sh).1.lastControlX = st.lastControlX ∧
      (handleVerticalLine coords isAbsolute st sh).1.lastControlY = st.lastControlY ∧
      (handleArc f coords isAbsolute st sh).1.lastControlX = st.lastControlX ∧
      (handleArc f coords isAbsolute st sh).1.lastControlY = st.lastControlY ∧
      (closePathState st).lastControlX = st.lastControlX ∧
      (closePathState st).lastControlY = st.lastControlY) := by
  constructor
  · intro coords isAbsolute st
    constructor
    · show Pt.mk (jsSub st.currentX (jsSub st.lastControlX st.currentX))
          (jsSub st.currentY (jsSub st.lastControlY st.currentY)) = _
      rw [reflectEq, reflectEq]
    · show Pt.mk (jsSub st.currentX (jsSub st.lastControlX st.currentX))
          (jsSub st.currentY (jsSub st.lastControlY st.currentY)) = _
      rw [reflectEq, reflectEq]
  · intro f coords isAbsolute st sh
    refine ⟨?_, ?_, ?_, ?_, ?_, ?_, ?_, ?_, ?_, ?_, rfl, rfl⟩ <;>
      rcases coords with _ | ⟨a0, _ | ⟨a1, _ | ⟨a2, _ | ⟨a3, _ | ⟨a4, _ | ⟨a5, _ | ⟨a6, tl⟩⟩⟩⟩⟩⟩⟩ <;>
      first
        | rfl
        | (unfold handleArc
           rw [if_pos (show (a0 :: a1 :: a2 :: a3 :: a4 :: a5 :: a6 :: tl).length ≥ 7 by
                simp [List.length_cons])]
           rfl)

/-- C4, counterexample: a degenerate arc does not flatten to the straight
line `[from, end]`.  Parsing `"M0,0 A0,0 0 0 0 10,0"` (radii `rx = ry = 0`,
from `(0,0)` to `(10,0)`) emits 50 line segments that all collapse onto the
midpoint `(5,0)`: the resulting outline point sequence is
`[(0,0), (5,0), (0,0)]` — the arc's endpoint `(10,0)` never appears, and the
promised two-point straight line `[(0,0), (10,0)]` is not produced.  (The
result is independent of the trigonometric primitives because both radii are
zero; `fns0` instantiates them concretely.) -/
theorem c4_counterexample :
    (parsePath fns0 "M0,0 A0,0 0 0 0 10,0").isSome = true ∧
    ((parsePath fns0 "M0,0 A0,0 0 0 0 10,0").getD Shape.empty).getPts 100 =
      [⟨some 0, some 0⟩, ⟨some 5, some 0⟩, ⟨some 0, some 0⟩] ∧
    ((parsePath fns0 "M0,0 A0,0 0 0 0 10,0").getD Shape.empty).curves.length = 51 :=
  of_decide_eq_true (by with_unfolding_all rfl)

/-- C4, amended: `createEllipticalArc` can never fail (the straight-line
fallback in `handleArc` is dead code), and for degenerate radii
`rx = ry = 0` every one of the 51 samples of the constructed ellipse equals
the midpoint of the start and end points — for every behaviour of the
floating-point primitives.  The parse does not fail, but no straight line to
the endpoint and no `DegradedFlatten` event is produced (no such event
exists in the code). -/
theorem c4_degenerate_arc :
    (∀ (f : RealFns) (x1 y1 x2 y2 rx ry rotVal : JSNum) (la sw : Bool),
      createEllipticalArc f x1 y1 x2 y2 rx ry rotVal la sw ≠ none) ∧
    (∀ (f : RealFns) (x1 y1 x2 y2 : ℚ) (rotVal : JSNum) (la sw : Bool) (arc : EllipseCurve),
      createEllipticalArc f (some x1) (some y1) (some x2) (some y2) (some 0) (some 0)
        rotVal la sw = some arc →
      ∀ p ∈ arc.getPts f 50,
        p = ⟨some ((x1 + x2) / 2), some ((y1 + y2) / 2)⟩) := by
  constructor
  · intro f x1 y1 x2 y2 rx ry rotVal la sw
    simp [createEllipticalArc]
  · intro f x1 y1 x2 y2 rotVal la sw arc harc p hp
    simp only [createEllipticalArc, Option.some.injEq] at harc
    subst harc
    simp only [EllipseCurve.getPts, List.mem_map] at hp
    obtain ⟨i, _, rfl⟩ := hp
    simp [EllipseCurve.getPoint, jsEq, jsAdd, jsSub, jsMul, jsDivC, jsCos, jsSin,
      jsAtan2, jsNormDelta]

/-- C4, witness for the amended theorem: the concrete degenerate arc of the
claim (`rx = ry = 0`, from `(0,0)` to `(10,0)`) has its first sample equal to
the midpoint `(5,0)`. -/
theorem c4_degenerate_arc_witness :
    (⟨some 5, some 0⟩ : Pt) =
      ⟨some (((0 : ℚ) + 10) / 2), some (((0 : ℚ) + 0) / 2)⟩ :=
  c4_degenerate_arc.2 fns0 0 0 10 0 (some 0) false false
    ⟨some 5, some 0, some 0, some 0, some 0, some 0, false, some 0⟩
    (of_decide_eq_true (by with_unfolding_all rfl))
    ⟨some 5, some 0⟩ (of_decide_eq_true (by with_unfolding_all rfl))

theorem closePath_nil (s : Shape) (h : s.curves = []) : s.closePath = none := by
  unfold Shape.closePath
  rw [h]

theorem closePath_cons (s : Shape) (c : Seg) (tl : List Seg) (h : s.curves = c :: tl) :
    s.closePath =
      if ptEq c.v1 (tl.getLastD c).v2 then some s
      else some ⟨s.curves ++ [⟨(tl.getLastD c).v2, c.v1⟩], s.currentPoint⟩ := by
  unfold Shape.closePath
  rw [h]

/-- C5, counterexample: the square without `Z` yields an outline point
sequence of length 5 (the four corners plus the repeated start point), not
"exactly 4 points"; and an outline is not always closed: in
`"M0,0 L1,0 L1,1 Z M5,5 L6,5 L6,6"` the letter `Z` anywhere in the string
disables the auto-close, so the second subpath ends open at `(6,6)` with no
segment back to its start `(5,5)`. -/
theorem c5_counterexample :
    (parsePath fns0 "M0,0 L10,0 L10,10 L0,10").isSome = true ∧
    (((parsePath fns0 "M0,0 L10,0 L10,10 L0,10").getD Shape.empty).getPts 100).length = 5 ∧
    (parsePath fns0 "M0,0 L1,0 L1,1 Z M5,5 L6,5 L6,6").isSome = true ∧
    ((parsePath fns0 "M0,0 L1,0 L1,1 Z M5,5 L6,5 L6,6").getD Shape.empty).getPts 100 =
      [⟨some 0, some 0⟩, ⟨some 1, some 0⟩, ⟨some 1, some 1⟩, ⟨some 0, some 0⟩,
       ⟨some 5, some 5⟩, ⟨some 6, some 5⟩, ⟨some 6, some 6⟩] := by
  refine ⟨?_, ?_, ?_, ?_⟩ <;> decide

/-- C5, amended: the claim's square example is auto-closed as promised —
`"M0,0 L10,0 L10,10 L0,10"` parses successfully, to exactly the same result
as the same path with a trailing `Z`, and its outline is the 4 corners
followed by the repeated start point (5 points, first = last).  In general,
when a path string contains no `'Z'`/`'z'` at all and its parse succeeds
(a curveless shape instead makes the auto-close throw), the final
`closePath` compares the first curve's start with the last curve's endpoint
and appends a segment from that endpoint back to the start when the two
differ, so the resulting curve chain's last endpoint always connects back to
the first curve's start — on the nose when a closing segment was appended,
up to `===` when the chain was already closed.  When the string contains
`'Z'` or `'z'` anywhere, no auto-close occurs and a trailing subpath may
remain open. -/
theorem c5_auto_close :
    (∀ f : RealFns,
      parsePath f "M0,0 L10,0 L10,10 L0,10" = parsePath f "M0,0 L10,0 L10,10 L0,10 Z" ∧
      (parsePath f "M0,0 L10,0 L10,10 L0,10").isSome = true ∧
      ((parsePath f "M0,0 L10,0 L10,10 L0,10").getD Shape.empty).getPts 100 =
        [⟨some 0, some 0⟩, ⟨some 10, some 0⟩, ⟨some 10, some 10⟩, ⟨some 0, some 10⟩,
         ⟨some 0, some 0⟩]) ∧
    (∀ (f : RealFns) (d : String) (sh : Shape) (c : Seg) (rest : List Seg),
      d.toList.contains 'Z' = false → d.toList.contains 'z' = false →
      parsePath f d = some sh → sh.curves = c :: rest →
      (sh.curves.getLastD c).v2 = c.v1 ∨ ptEq c.v1 (sh.curves.getLastD c).v2 = true) := by
  constructor
  · intro f
    exact ⟨rfl, rfl, rfl⟩
  · intro f d sh c rest hZ hz hparse hcurves
    unfold parsePath at hparse
    simp only [hZ, hz, Bool.not_false, Bool.and_self, if_true] at hparse
    cases hpt : parseTokens f (tokenize d.toList) PState.init Shape.empty with
    | none =>
      rw [hpt] at hparse
      simp at hparse
    | some res =>
      rw [hpt, Option.some_bind] at hparse
      cases hc0 : res.2.curves with
      | nil =>
        rw [closePath_nil _ hc0] at hparse
        cases hparse
      | cons c0 tl =>
        rw [closePath_cons _ c0 tl hc0] at hparse
        by_cases he : ptEq c0.v1 (tl.getLastD c0).v2 = true
        · rw [if_pos he] at hparse
          injection hparse with h1
          subst h1
          rw [hc0] at hcurves
          injection hcurves with hcc hrr
          subst hcc
          subst hrr
          right
          rw [hc0, List.getLastD_cons]
          exact he
        · rw [if_neg he] at hparse
          injection hparse with h1
          subst h1
          left
          dsimp only at hcurves ⊢
          rw [hc0, List.cons_append] at hcurves ⊢
          injection hcurves with hcc hrr
          subst hcc
          subst hrr
          rw [List.getLastD_cons, List.getLastD_concat]

/-- C5, witness for the amended theorem: `"M0,0 L10,0"` contains no `Z`, its
parse succeeds with first curve `(0,0)→(10,0)`, and the auto-close appended
the segment from the last curve's endpoint `(10,0)` back to `(0,0)`, so the
final endpoint equals the first curve's start on the nose. -/
theorem c5_auto_close_witness :
    (((⟨[⟨⟨some 0, some 0⟩, ⟨some 10, some 0⟩⟩,
         ⟨⟨some 10, some 0⟩, ⟨some 0, some 0⟩⟩], ⟨some 10, some 0⟩⟩ : Shape).curves.getLastD
        ⟨⟨some 0, some 0⟩, ⟨some 10, some 0⟩⟩).v2 =
      (Seg.mk ⟨some 0, some 0⟩ ⟨some 10, some 0⟩).v1) ∨
    ptEq (Seg.mk ⟨some 0, some 0⟩ ⟨some 10, some 0⟩).v1
      (((⟨[⟨⟨some 0, some 0⟩, ⟨some 10, some 0⟩⟩,
           ⟨⟨some 10, some 0⟩, ⟨some 0, some 0⟩⟩], ⟨some 10, some 0⟩⟩ : Shape).curves.getLastD
          ⟨⟨some 0, some 0⟩, ⟨some 10, some 0⟩⟩).v2) = true :=
  c5_auto_close.2 fns0 "M0,0 L10,0"
    ⟨[⟨⟨some 0, some 0⟩, ⟨some 10, some 0⟩⟩, ⟨⟨some 10, some 0⟩, ⟨some 0, some 0⟩⟩],
      ⟨some 10, some 0⟩⟩
    ⟨⟨some 0, some 0⟩, ⟨some 10, some 0⟩⟩
    [⟨⟨some 10, some 0⟩, ⟨some 0, some 0⟩⟩]
    (by decide) (by decide) (by decide) (by decide)

/-- C6, counterexample: a run that produces zero outlines does not fail with
`NoValidOutlines` — no such error exists.  When no path yields a shape (here:
a path element without a `d` attribute, and the empty path list), the
pipeline substitutes a fallback 20×20 square (4 segments) and resolves with
`success: true`. -/
theorem c6_counterexample :
    processAdvancedSVG fns0 [none] = ⟨true, [fallbackShape]⟩ ∧
    processAdvancedSVG fns0 [] = ⟨true, [fallbackShape]⟩ ∧
    fallbackShape.curves.length = 4 := by
  refine ⟨?_, ?_, ?_⟩ <;> decide

/-- C6, amended: processing never reports a missing-outline error: for every
input, the result resolves with `success = true` and a non-empty shape list —
when zero shapes were produced, the fallback square is substituted instead of
failing. -/
theorem c6_fallback_success :
    ∀ (f : RealFns) (pathDatas : List (Option String)),
      (processAdvancedSVG f pathDatas).success = true ∧
      (processAdvancedSVG f pathDatas).shapes ≠ [] := by
  intro f pds
  unfold processAdvancedSVG
  refine ⟨rfl, ?_⟩
  dsimp only
  split
  · simp
  · next h =>
      intro hc
      rw [hc] at h
      simp at h

/-- C7: on every input (however adversarial) and at every rung of the detail
ladder (Low ×0.5, Medium ×1.0, High ×2.0, Ultra ×4.0), the planned
`curveSegments` never exceeds 512: the Medium base is clamped to at most 128
and the largest multiplier is 4. -/
theorem c7_curve_resolution_bound :
    ∀ (complexity curveCount sizeLen : ℚ) (ds : DetailedShapeSettings),
      ds ∈ createProgressiveDetailSettings complexity curveCount sizeLen →
      ds.curveSegments ≤ 512 := by
  intro c k s ds hds
  have hbase : (analyzeShapeForZoomSettings c k s).curveSegments ≤ 128 :=
    max_le (by norm_num) (min_le_left _ _)
  have hfloor : ∀ m : ℚ, 0 ≤ m → m ≤ 4 →
      (ladderRung (analyzeShapeForZoomSettings c k s) m).curveSegments ≤ 512 := by
    intro m hm0 hm4
    show ((Int.floor ((analyzeShapeForZoomSettings c k s).curveSegments * m) : ℤ) : ℚ) ≤ 512
    calc ((Int.floor ((analyzeShapeForZoomSettings c k s).curveSegments * m) : ℤ) : ℚ)
        ≤ (analyzeShapeForZoomSettings c k s).curveSegments * m := Int.floor_le _
      _ ≤ 128 * m := mul_le_mul_of_nonneg_right hbase hm0
      _ ≤ 128 * 4 := mul_le_mul_of_nonneg_left hm4 (by norm_num)
      _ ≤ 512 := by norm_num
  simp only [createProgressiveDetailSettings, levelMultipliers, List.map_cons, List.map_nil,
    List.mem_cons, List.not_mem_nil, or_false] at hds
  rcases hds with rfl | rfl | rfl | rfl
  · exact hfloor _ (by norm_num) (by norm_num)
  · exact hfloor _ (by norm_num) (by norm_num)
  · exact hfloor _ (by norm_num) (by norm_num)
  · exact hfloor _ (by norm_num) (by norm_num)

/-- C7, witness: at the adversarial analysis of the claim (10000 curve
commands, complexity 100050), the Ultra rung still satisfies the bound. -/
theorem c7_bound_witness :
    (ladderRung (analyzeShapeForZoomSettings 100050 10000 0) 4).curveSegments ≤ 512 :=
  c7_curve_resolution_bound 100050 10000 0 _
    (by simp [createProgressiveDetailSettings, levelMultipliers])

/-- C8, counterexample: `bevelSegments` is not an integer.  At
`curveCount = 5` the code computes `clamp(5 / 2, 2, 8) = 5/2 = 2.5` with no
truncation (denominator 2), contradicting "as an int". -/
theorem c8_counterexample :
    (analyzeShapeForZoomSettings 100 5 0).bevelSegments = 5 / 2 ∧
    ((5 : ℚ) / 2).den = 2 :=
  of_decide_eq_true (by with_unfolding_all rfl)

/-- C8, amended: the Medium-rung settings of `analyzeShapeForZoom` satisfy
exactly `curveSegments = clamp(complexity/5, 32, 128)`,
`bevelEnabled = (curveCount > 5)`,
`bevelThickness = curveCount > 10 ? 0.3 : 0.1`,
`bevelSize = curveCount > 10 ? 0.2 : 0.05`,
`bevelSegments = clamp(curveCount/2, 2, 8)` as an exact rational (no
integer truncation), `steps = clamp(floor(complexity/50), 1, 4)` and
`extrudeDepth = clamp(diagonal/20, 0.5, 5)`. -/
theorem c8_medium_settings :
    ∀ (complexity curveCount sizeLen : ℚ),
      (analyzeShapeForZoomSettings complexity curveCount sizeLen).curveSegments =
        clampSpec (complexity / 5) 32 128 ∧
      ((analyzeShapeForZoomSettings complexity curveCount sizeLen).bevelEnabled = true ↔
        curveCount > 5) ∧
      (analyzeShapeForZoomSettings complexity curveCount sizeLen).bevelThickness =
        (if curveCount > 10 then 3 / 10 else 1 / 10) ∧
      (analyzeShapeForZoomSettings complexity curveCount sizeLen).bevelSize =
        (if curveCount > 10 then 1 / 5 else 1 / 20) ∧
      (analyzeShapeForZoomSettings complexity curveCount sizeLen).bevelSegments =
        clampSpec (curveCount / 2) 2 8 ∧
      (analyzeShapeForZoomSettings complexity curveCount sizeLen).steps =
        clampSpec ((Int.floor (complexity / 50) : ℤ) : ℚ) 1 4 ∧
      (analyzeShapeForZoomSettings complexity curveCount sizeLen).extrudeDepth =
        clampSpec (sizeLen / 20) (1 / 2) 5 := by
  intro c k s
  refine ⟨clampEq _ _ _ (by norm_num), ?_, rfl, rfl, clampEq _ _ _ (by norm_num),
    clampEq _ _ _ (by norm_num), clampEq _ _ _ (by norm_num)⟩
  simp [analyzeShapeForZoomSettings]

end EditLogo
